import Mathlib

/-!
Verification of the household-dashboard classification, validation and
aggregation pipeline (src/dashboard.py) against its specification.

The pipeline is embedded shallowly: each SQL query and each pandas
transformation of dashboard.py is translated into an executable Lean
definition over explicit row lists.  Nullable SQL columns become `Option`
fields; SQL `GROUP BY` becomes grouping over the list of distinct keys;
SQL `ORDER BY` over a finite CASE key becomes bucket concatenation.
GPS coordinates and accuracies (SQL floats compared against the constant 5)
are modelled as rationals.
-/

namespace Dashboard

/-- Raw household row, with the columns of the households table referenced by
dashboard.py (the pandas load at lines 24-38 and the report/quality SQL
queries).  Nullable columns are `Option`.  `four_1_1` is the
interview-outcome code (it is mapped through `interview_map` at line 108),
`four_3_1` the data-collector name, `agree_yes` the consent flag,
`consent_three_7_1` the death-consent flag and `consent_death_three_7_2`
the reported death count. -/
structure Household where
  key : String
  pro_name : String
  location_name : String
  sector : Option Int
  four_1_1 : Option Int
  four_3_1 : Option String
  interview_date_time_1 : Option String
  agree_yes : Option Int
  hh_gps_latitude : Option ℚ
  hh_gps_longitude : Option ℚ
  hh_gps_altitude : Option ℚ
  hh_gps_accuracy : Option ℚ
  water_source_gps_latitude : Option ℚ
  water_source_gps_longitude : Option ℚ
  water_source_gps_altitude : Option ℚ
  water_source_gps_accuracy : Option ℚ
  toilet_gps_latitude : Option ℚ
  toilet_gps_longitude : Option ℚ
  toilet_gps_altitude : Option ℚ
  toilet_gps_accuracy : Option ℚ
  consent_three_7_1 : Option Int
  consent_death_three_7_2 : Option Int
deriving DecidableEq, Repr

/-- Raw individual row (dashboard.py line 40): the member key and the key of
the owning household. -/
structure Individual where
  key : String
  parent_key : Option String
deriving DecidableEq, Repr

/-- Household with every column null or empty; concrete test rows below are
built from it by record update. -/
def baseHousehold : Household :=
  { key := "", pro_name := "", location_name := "", sector := none
    four_1_1 := none, four_3_1 := none, interview_date_time_1 := none
    agree_yes := none
    hh_gps_latitude := none, hh_gps_longitude := none
    hh_gps_altitude := none, hh_gps_accuracy := none
    water_source_gps_latitude := none, water_source_gps_longitude := none
    water_source_gps_altitude := none, water_source_gps_accuracy := none
    toilet_gps_latitude := none, toilet_gps_longitude := none
    toilet_gps_altitude := none, toilet_gps_accuracy := none
    consent_three_7_1 := none, consent_death_three_7_2 := none }

/-- Sector code to sector label (dashboard.py line 51); unmapped codes give
no label. -/
def sector_map (c : Int) : Option String :=
  if c = 1 then some "Urban"
  else if c = 2 then some "Peri-Urban"
  else if c = 3 then some "Settlement"
  else if c = 4 then some "Rural"
  else none

/-- Interview-outcome code to status label (dashboard.py lines 99-107);
unmapped codes give no label. -/
def interview_map (c : Int) : Option String :=
  if c = 1 then some "Completed"
  else if c = 2 then some "Partially completed"
  else if c = 3 then some "Household refused to participate"
  else if c = 4 then some "Entire household migrated out/absent for extended period"
  else if c = 5 then some "No competent respondent available at home"
  else if c = 6 then some "Other (Specify)"
  else if c = 96 then some "Don\x27t know"
  else none

/-- Character-wise lowering of a string, the `str.lower()` of the pandas
filter (dashboard.py line 62), embedded directly over the character list. -/
def lowerStr (s : String) : String := String.mk (s.data.map Char.toLower)

/-- In-memory site filter (dashboard.py line 62): keep the households whose
`pro_name` equals the selected site under case-insensitive comparison. -/
def siteHouseholds (site : String) (hhs : List Household) : List Household :=
  hhs.filter (fun h => decide (lowerStr h.pro_name = lowerStr site))

/-- Individuals linked to the selected site (dashboard.py line 75): those
whose parent key is among the site household keys. -/
def siteIndividuals (site : String) (hhs : List Household)
    (inds : List Individual) : List Individual :=
  inds.filter (fun i => (siteHouseholds site hhs).any
    (fun h => decide (i.parent_key = some h.key)))

/-- Round-half-to-even on rationals, the rounding used by the Python builtin
`round` (dashboard.py line 94). -/
def roundHalfEven (q : ℚ) : ℤ :=
  let f : ℤ := ⌊q⌋
  let r : ℚ := q - (f : ℚ)
  if r < 1/2 then f
  else if 1/2 < r then f + 1
  else if Even f then f else f + 1

/-- Rounding to two decimal places, `round(x, 2)` of dashboard.py line 94. -/
def round2 (q : ℚ) : ℚ := (roundHalfEven (q * 100) : ℚ) / 100

/-- Average-household-size metric of the Overview tab (dashboard.py
lines 74-75 and 94): individuals of the site divided by households of the
site rounded to two decimals, guarded so a site with zero households yields
exactly 0 without evaluating the quotient. -/
def avgHouseholdSize (site : String) (hhs : List Household)
    (inds : List Individual) : ℚ :=
  let nh := (siteHouseholds site hhs).length
  let ni := (siteIndividuals site hhs inds).length
  if 0 < nh then round2 ((ni : ℚ) / (nh : ℚ)) else 0

/-! ### GPS defect check (Data Quality tab, dashboard.py lines 174-267) -/

/-- Accuracy bucket of one GPS triple, the CASE expressions at dashboard.py
lines 203-219: `na` renders as the SQL string N/A, `inaccurate` as a string
starting with Inaccurate, `accurate` as one starting with Accurate. -/
inductive AccuracyLabel
  | na
  | inaccurate
  | accurate
deriving DecidableEq, Repr

/-- CASE WHEN accuracy IS NULL THEN N/A WHEN accuracy > 5 THEN Inaccurate
ELSE Accurate (dashboard.py lines 203-219). -/
def accuracyLabel (acc : Option ℚ) : AccuracyLabel :=
  match acc with
  | none => AccuracyLabel.na
  | some x => if 5 < x then AccuracyLabel.inaccurate else AccuracyLabel.accurate

/-- Completeness bucket of one GPS triple, the CASE expressions at
dashboard.py lines 184-200. -/
inductive GpsStatus
  | missing
  | complete
deriving DecidableEq, Repr

/-- CASE WHEN latitude IS NULL OR longitude IS NULL OR altitude IS NULL THEN
Missing ELSE Complete (dashboard.py lines 184-200). -/
def completeness (lat lon alt : Option ℚ) : GpsStatus :=
  if lat = none ∨ lon = none ∨ alt = none then GpsStatus.missing
  else GpsStatus.complete

/-- One GPS triple trips the defect filter: a coordinate is null, or the
accuracy exceeds 5, or the accuracy is null (the three parenthesised
disjunctions of the WHERE clause, dashboard.py lines 226-249). -/
def tripleDefect (lat lon alt acc : Option ℚ) : Bool :=
  decide (lat = none) || decide (lon = none) || decide (alt = none) ||
  (match acc with
   | none => false
   | some x => decide (5 < x)) ||
  decide (acc = none)

/-- Defect condition over the household triple. -/
def hhTripleDefect (h : Household) : Bool :=
  tripleDefect h.hh_gps_latitude h.hh_gps_longitude h.hh_gps_altitude
    h.hh_gps_accuracy

/-- Defect condition over the water-source triple. -/
def waterTripleDefect (h : Household) : Bool :=
  tripleDefect h.water_source_gps_latitude h.water_source_gps_longitude
    h.water_source_gps_altitude h.water_source_gps_accuracy

/-- Defect condition over the toilet triple. -/
def toiletTripleDefect (h : Household) : Bool :=
  tripleDefect h.toilet_gps_latitude h.toilet_gps_longitude
    h.toilet_gps_altitude h.toilet_gps_accuracy

/-- GPS defect detail rows (missing_gps_query, dashboard.py lines 174-255):
consenting households of the selected site for which at least one of the
three GPS triples trips the defect condition.  The query projects the rows
to display columns and sorts them; membership and the summary counts are
unaffected, so the rows are modelled as the household records themselves. -/
def missingGpsRows (site : String) (hhs : List Household) : List Household :=
  hhs.filter (fun h =>
    decide (h.agree_yes = some 1) && decide (h.pro_name = site) &&
    (hhTripleDefect h || waterTripleDefect h || toiletTripleDefect h))

/-- Summary counter (dashboard.py line 262): detail rows whose household
triple is labelled Missing. -/
def hhMissingCount (rows : List Household) : ℕ :=
  rows.countP (fun h =>
    decide (completeness h.hh_gps_latitude h.hh_gps_longitude
      h.hh_gps_altitude = GpsStatus.missing))

/-- Summary counter (dashboard.py line 263): detail rows whose household
accuracy label starts with Inaccurate. -/
def hhInaccurateCount (rows : List Household) : ℕ :=
  rows.countP (fun h =>
    decide (accuracyLabel h.hh_gps_accuracy = AccuracyLabel.inaccurate))

/-- Summary counter (dashboard.py line 264): water-source triple Missing. -/
def waterMissingCount (rows : List Household) : ℕ :=
  rows.countP (fun h =>
    decide (completeness h.water_source_gps_latitude
      h.water_source_gps_longitude h.water_source_gps_altitude =
      GpsStatus.missing))

/-- Summary counter (dashboard.py line 265): water-source accuracy label
starts with Inaccurate. -/
def waterInaccurateCount (rows : List Household) : ℕ :=
  rows.countP (fun h =>
    decide (accuracyLabel h.water_source_gps_accuracy =
      AccuracyLabel.inaccurate))

/-- Summary counter (dashboard.py line 266): toilet triple Missing. -/
def toiletMissingCount (rows : List Household) : ℕ :=
  rows.countP (fun h =>
    decide (completeness h.toilet_gps_latitude h.toilet_gps_longitude
      h.toilet_gps_altitude = GpsStatus.missing))

/-- Summary counter (dashboard.py line 267): toilet accuracy label starts
with Inaccurate. -/
def toiletInaccurateCount (rows : List Household) : ℕ :=
  rows.countP (fun h =>
    decide (accuracyLabel h.toilet_gps_accuracy = AccuracyLabel.inaccurate))

/-- Site restriction of the SQL report and quality queries
(dashboard.py lines 224, 338, 444, 568, 634, 767, 888, 903): exact,
case-sensitive equality of `pro_name` against the selected site. -/
def siteExact (site : String) (hhs : List Household) : List Household :=
  hhs.filter (fun h => decide (h.pro_name = site))

/-! ### Daily tally (Report tab, dashboard.py lines 554-577) -/

/-- Daily tally row filter (dashboard.py lines 567-568): the household's
consent field is non-null (IS NOT NULL — any non-null value passes, not only
1) and `pro_name` equals the selected site exactly. -/
def dailyFiltered (site : String) (hhs : List Household) : List Household :=
  hhs.filter (fun h =>
    decide (h.agree_yes ≠ none) && decide (h.pro_name = site))

/-- Daily grouping key (dashboard.py lines 556-558 and 569-572): collector,
village, and the interview timestamp truncated to its 10-character calendar
date (`DATE(h.interview_date_time_1)` on a well-formed value). -/
def dailyKey (h : Household) : Option String × String × Option String :=
  (h.four_3_1, h.location_name, h.interview_date_time_1.map (fun s => s.take 10))

/-- Distinct daily grouping keys of the filtered households (GROUP BY).  The
final ORDER BY of the query is presentational and not modelled. -/
def dailyKeys (site : String) (hhs : List Household) :
    List (Option String × String × Option String) :=
  ((dailyFiltered site hhs).map dailyKey).dedup

/-- Households of one daily group. -/
def dailyGroup (site : String) (hhs : List Household)
    (k : Option String × String × Option String) : List Household :=
  (dailyFiltered site hhs).filter (fun h => decide (dailyKey h = k))

/-- One output row of the daily tally (dashboard.py lines 555-565). -/
structure DailyTallyRow where
  data_collector : Option String
  village_name : String
  collection_date : Option String
  completed : ℕ
  partially_completed : ℕ
  refused : ℕ
  could_not_be_located : ℕ
  other : ℕ
  dont_know : ℕ
  total_interviews : ℕ
deriving DecidableEq, Repr

/-- Aggregates of one daily group (dashboard.py lines 559-565): one
conditional count per outcome code 1-6 and `COUNT(*)` as the total. -/
def dailyRow (k : Option String × String × Option String)
    (g : List Household) : DailyTallyRow :=
  { data_collector := k.1
    village_name := k.2.1
    collection_date := k.2.2
    completed := g.countP (fun h => decide (h.four_1_1 = some 1))
    partially_completed := g.countP (fun h => decide (h.four_1_1 = some 2))
    refused := g.countP (fun h => decide (h.four_1_1 = some 3))
    could_not_be_located := g.countP (fun h => decide (h.four_1_1 = some 4))
    other := g.countP (fun h => decide (h.four_1_1 = some 5))
    dont_know := g.countP (fun h => decide (h.four_1_1 = some 6))
    total_interviews := g.length }

/-- Daily tally table (daily_tally_query, dashboard.py lines 554-577). -/
def dailyTally (site : String) (hhs : List Household) : List DailyTallyRow :=
  (dailyKeys site hhs).map (fun k => dailyRow k (dailyGroup site hhs k))

/-- Sum of the six outcome-count columns of a daily tally row. -/
def sixSum (r : DailyTallyRow) : ℕ :=
  r.completed + r.partially_completed + r.refused + r.could_not_be_located +
    r.other + r.dont_know

/-- Outcome codes with a dedicated daily tally column. -/
def sixCodes : List (Option Int) :=
  [some 1, some 2, some 3, some 4, some 5, some 6]

/-- Households of a group whose outcome code has no dedicated column (null,
96, or any other unmapped value). -/
def outsideSixCount (g : List Household) : ℕ :=
  g.countP (fun h => decide (h.four_1_1 ∉ sixCodes))

/-! ### Monthly progressive tally (Report tab, dashboard.py lines 624-715) -/

/-- Test for the regular expression anchored at the start of the timestamp,
`^\d{4}-\d{2}-\d{2}` (dashboard.py line 635). -/
def dateShapeOk (s : String) : Bool :=
  match s.data with
  | y1 :: y2 :: y3 :: y4 :: a :: m1 :: m2 :: b :: d1 :: d2 :: _ =>
      y1.isDigit && y2.isDigit && y3.isDigit && y4.isDigit &&
      decide (a = '-') && m1.isDigit && m2.isDigit && decide (b = '-') &&
      d1.isDigit && d2.isDigit
  | _ => false

/-- Monthly tally filter (dashboard.py lines 634-636): exact site match, a
timestamp with a well-formed date prefix, and outcome code 1 (completed). -/
def monthlyFiltered (site : String) (hhs : List Household) : List Household :=
  hhs.filter (fun h =>
    decide (h.pro_name = site) &&
    (match h.interview_date_time_1 with
     | none => false
     | some s => dateShapeOk s) &&
    decide (h.four_1_1 = some 1))

/-- Calendar month of a household's interview timestamp, the 7-character
YYYY-MM prefix; on the well-formed dates admitted by the filter this is the
`DATE_TRUNC('month', TO_DATE(SUBSTRING(...,1,10),...))` key of dashboard.py
line 627. -/
def monthKey (h : Household) : String :=
  match h.interview_date_time_1 with
  | some s => s.take 7
  | none => ""

/-- Distinct months of the filtered households (the months of the msd CTE).
The chronological ORDER BY is presentational and not modelled. -/
def monthsOf (site : String) (hhs : List Household) : List String :=
  ((monthlyFiltered site hhs).map monthKey).dedup

/-- Filtered households of one month. -/
def monthGroup (site : String) (hhs : List Household) (m : String) :
    List Household :=
  (monthlyFiltered site hhs).filter (fun h => decide (monthKey h = m))

/-- Households of a group with the given sector value (GROUP BY sector). -/
def sectorGroup (g : List Household) (s : Option Int) : List Household :=
  g.filter (fun h => decide (h.sector = s))

/-- The four mapped sector codes of the sector enumeration. -/
def fourSectorCodes : List (Option Int) :=
  [some 1, some 2, some 3, some 4]

/-- COUNT(DISTINCT h.key) over a group (dashboard.py line 630). -/
def distinctHouseholdCount (g : List Household) : ℕ :=
  ((g.map Household.key).dedup).length

/-- COUNT(i.key) over the LEFT JOIN with individuals (dashboard.py lines
631-633): every individual row linked to a household row of the group. -/
def linkedPopulation (g : List Household) (inds : List Individual) : ℕ :=
  (g.map (fun h =>
    (inds.filter (fun i => decide (i.parent_key = some h.key))).length)).sum

/-- Month total of households, the monthly_totals CTE (dashboard.py lines
639-646): SUM of the per-sector distinct household counts over every sector
group of the month, mapped sectors or not. -/
def monthTotalHouseholds (g : List Household) : ℕ :=
  (((g.map Household.sector).dedup).map
    (fun s => distinctHouseholdCount (sectorGroup g s))).sum

/-- Month total of population, the monthly_totals CTE (dashboard.py lines
639-646). -/
def monthTotalPopulation (g : List Household) (inds : List Individual) : ℕ :=
  (((g.map Household.sector).dedup).map
    (fun s => linkedPopulation (sectorGroup g s) inds)).sum

/-- One month row of the progressive tally (dashboard.py lines 647-668 and
682-694).  `month` holds the YYYY-MM truncation key; the display
reformatting of TO_CHAR is presentational. -/
structure MonthRow where
  month : String
  urban_hh : ℕ
  urban_pop : ℕ
  periurban_hh : ℕ
  periurban_pop : ℕ
  settlement_hh : ℕ
  settlement_pop : ℕ
  rural_hh : ℕ
  rural_pop : ℕ
  total_hh : ℕ
  total_pop : ℕ
deriving DecidableEq, Repr

/-- Pivoted month row (dashboard.py lines 647-668): per sector 1-4 the
COALESCE(MAX(...),0) of that sector group's counts — the group's value when
the sector occurs in the month, 0 otherwise, which is exactly the count over
the possibly empty sector group — plus the month totals. -/
def monthRow (site : String) (hhs : List Household) (inds : List Individual)
    (m : String) : MonthRow :=
  let g := monthGroup site hhs m
  { month := m
    urban_hh := distinctHouseholdCount (sectorGroup g (some 1))
    urban_pop := linkedPopulation (sectorGroup g (some 1)) inds
    periurban_hh := distinctHouseholdCount (sectorGroup g (some 2))
    periurban_pop := linkedPopulation (sectorGroup g (some 2)) inds
    settlement_hh := distinctHouseholdCount (sectorGroup g (some 3))
    settlement_pop := linkedPopulation (sectorGroup g (some 3)) inds
    rural_hh := distinctHouseholdCount (sectorGroup g (some 4))
    rural_pop := linkedPopulation (sectorGroup g (some 4)) inds
    total_hh := monthTotalHouseholds g
    total_pop := monthTotalPopulation g inds }

/-- Month rows of the monthly progressive tally (monthly_tally_query,
dashboard.py lines 624-669). -/
def monthlyRows (site : String) (hhs : List Household)
    (inds : List Individual) : List MonthRow :=
  (monthsOf site hhs).map (monthRow site hhs inds)

/-- Grand-total row (dashboard.py lines 702-714): column-wise sums over the
emitted month rows, recomputed from the rows themselves. -/
def grandTotalRow (rows : List MonthRow) : MonthRow :=
  { month := "GRAND TOTAL"
    urban_hh := (rows.map MonthRow.urban_hh).sum
    urban_pop := (rows.map MonthRow.urban_pop).sum
    periurban_hh := (rows.map MonthRow.periurban_hh).sum
    periurban_pop := (rows.map MonthRow.periurban_pop).sum
    settlement_hh := (rows.map MonthRow.settlement_hh).sum
    settlement_pop := (rows.map MonthRow.settlement_pop).sum
    rural_hh := (rows.map MonthRow.rural_hh).sum
    rural_pop := (rows.map MonthRow.rural_pop).sum
    total_hh := (rows.map MonthRow.total_hh).sum
    total_pop := (rows.map MonthRow.total_pop).sum }

/-- Displayed monthly table (dashboard.py lines 698-715): the month rows
with the grand-total row appended when there is at least one month row. -/
def monthlyReportTable (rows : List MonthRow) : List MonthRow :=
  if rows.isEmpty then rows else rows ++ [grandTotalRow rows]

/-! ### Interview-outcome pivot (Report tab, dashboard.py lines 759-807) -/

/-- One row of the interview-outcome table (dashboard.py lines 770-806). -/
structure OutcomeRow where
  outcome_type : String
  households : ℕ
  population : ℕ
deriving DecidableEq, Repr

/-- The outcomes CTE (dashboard.py lines 760-768): per distinct
(household key, outcome code) pair of the site, regardless of consent. -/
def outcomeEntries (site : String) (hhs : List Household) :
    List (String × Option Int) :=
  ((siteExact site hhs).map (fun h => (h.key, h.four_1_1))).dedup

/-- COUNT(DISTINCT i.key) of the individuals linked to one household key
(dashboard.py line 764). -/
def distinctIndividualCount (inds : List Individual) (k : String) : ℕ :=
  (((inds.filter (fun i => decide (i.parent_key = some k))).map
    Individual.key).dedup).length

/-- One branch of the UNION (dashboard.py lines 770-806): distinct household
count and summed population of the entries with the given status code. -/
def outcomeRow (site : String) (hhs : List Household)
    (inds : List Individual) (label : String) (c : Int) : OutcomeRow :=
  let entries := (outcomeEntries site hhs).filter
    (fun e => decide (e.2 = some c))
  { outcome_type := label
    households := ((entries.map Prod.fst).dedup).length
    population := (entries.map
      (fun e => distinctIndividualCount inds e.1)).sum }

/-- Interview-outcome pivot (outcomes_query, dashboard.py lines 759-807):
the five labelled rows in query order with the status codes the query
assigns to them. -/
def outcomesPivot (site : String) (hhs : List Household)
    (inds : List Individual) : List OutcomeRow :=
  [ outcomeRow site hhs inds "Completed" 1
  , outcomeRow site hhs inds "Partially completed" 2
  , outcomeRow site hhs inds "Refusal" 3
  , outcomeRow site hhs inds "No competent respondent" 4
  , outcomeRow site hhs inds "Absent for extended period" 5 ]

/-! ### Mortality by sector (Report tab, dashboard.py lines 871-914) -/

/-- One row of the mortality table (dashboard.py lines 873-886).  The death
sum is nullable: the query's SUM carries no COALESCE, so it is NULL when no
non-null input exists. -/
structure MortalityRow where
  sector : String
  households_with_death : ℕ
  total_deaths : Option Int
deriving DecidableEq, Repr

/-- CASE mapping of a sector code to its display label (dashboard.py lines
874-880). -/
def sectorCaseLabel (s : Option Int) : String :=
  match s with
  | some 1 => "Urban"
  | some 2 => "Peri-Urban"
  | some 3 => "Settlement"
  | some 4 => "Rural"
  | _ => "Unknown"

/-- Death-consent test of the CASE expressions (dashboard.py lines 881-886). -/
def deathConsent (h : Household) : Bool :=
  decide (h.consent_three_7_1 = some 1)

/-- Per-row input of the mortality SUM (dashboard.py lines 882-886 and
897-901), CASE WHEN consent_three_7_1 = 1 THEN consent_death_three_7_2
ELSE 0 END: a row without death consent contributes a non-null 0, a
consenting row contributes its possibly null death count. -/
def deathSumInput (h : Household) : Option Int :=
  if h.consent_three_7_1 = some 1 then h.consent_death_three_7_2 else some 0

/-- SQL SUM over nullable integer inputs: null inputs are skipped, and the
result is itself null when no non-null input exists (the mortality query,
unlike the monthly and outcome queries, wraps no COALESCE around its SUM). -/
def sqlSumInt (vals : List (Option Int)) : Option Int :=
  if vals.filterMap id = [] then none else some (vals.filterMap id).sum

/-- One sector group row (dashboard.py lines 873-889). -/
def mortSectorRow (f : List Household) (s : Option Int) : MortalityRow :=
  let g := sectorGroup f s
  { sector := sectorCaseLabel s
    households_with_death := g.countP deathConsent
    total_deaths := sqlSumInt (g.map deathSumInput) }

/-- The TOTAL row (dashboard.py lines 893-903): the same aggregates over all
households of the site. -/
def mortTotalRow (f : List Household) : MortalityRow :=
  { sector := "TOTAL"
    households_with_death := f.countP deathConsent
    total_deaths := sqlSumInt (f.map deathSumInput) }

/-- ORDER BY CASE key (dashboard.py lines 905-913). -/
def mortOrderKey (r : MortalityRow) : ℕ :=
  if r.sector = "Urban" then 1
  else if r.sector = "Peri-Urban" then 2
  else if r.sector = "Settlement" then 3
  else if r.sector = "Rural" then 4
  else if r.sector = "TOTAL" then 5
  else 6

/-- Sorting by the finite ORDER BY key, realised as bucket concatenation
(the order of rows sharing a key is unspecified in SQL). -/
def orderMortRows (rs : List MortalityRow) : List MortalityRow :=
  (rs.filter (fun r => decide (mortOrderKey r = 1))) ++
  (rs.filter (fun r => decide (mortOrderKey r = 2))) ++
  (rs.filter (fun r => decide (mortOrderKey r = 3))) ++
  (rs.filter (fun r => decide (mortOrderKey r = 4))) ++
  (rs.filter (fun r => decide (mortOrderKey r = 5))) ++
  (rs.filter (fun r => decide (mortOrderKey r = 6)))

/-- Mortality-by-sector table (mortality_query, dashboard.py lines 871-914):
one row per distinct sector value of the site's households, the TOTAL row,
ordered by the CASE key. -/
def mortalityTable (site : String) (hhs : List Household) :
    List MortalityRow :=
  let f := siteExact site hhs
  orderMortRows
    (((f.map Household.sector).dedup).map (mortSectorRow f) ++
      [mortTotalRow f])

/-! ### Error isolation (dashboard.py lines 173-544 and 546-959) -/

/-- Control flow of the Data Quality tab (dashboard.py lines 173-544): one
outer try wraps the GPS defect computation and, after it, the
missing-respondent section (inner try, lines 322-407) and the
missing-individual section (inner try, lines 413-538).  A failing GPS
computation is caught only by the outer handler (lines 542-544), which ends
the whole tab; failures of the two inner sections are caught by their own
handlers and the tab continues. -/
def runDataQualityTab {α β γ : Type} (gps : Except String α)
    (resp : Except String β) (ind : Except String γ) :
    Option α × Option β × Option γ :=
  match gps with
  | Except.error _ => (none, none, none)
  | Except.ok g => (some g, resp.toOption, ind.toOption)

/-- Control flow of the Report tab (dashboard.py lines 552-614, 622-750,
757-862, 869-959): each of the four aggregate views is wrapped in its own
try/except, so each failure is confined to its view. -/
def runReportTab {α β γ δ : Type} (daily : Except String α)
    (monthly : Except String β) (outc : Except String γ)
    (mort : Except String δ) :
    Option α × Option β × Option γ × Option δ :=
  (daily.toOption, monthly.toOption, outc.toOption, mort.toOption)

/-! ### Concrete rows used by the scenario and counterexample theorems -/

/-- Scenario household for the GPS defect check: water-source accuracy 7,
every triple complete, the other accuracies 3. -/
def gpsScenarioHH : Household :=
  { baseHousehold with
    key := "hh-gps", pro_name := "central", location_name := "v1"
    agree_yes := some 1
    hh_gps_latitude := some 1, hh_gps_longitude := some 2
    hh_gps_altitude := some 3, hh_gps_accuracy := some 3
    water_source_gps_latitude := some 1, water_source_gps_longitude := some 2
    water_source_gps_altitude := some 3, water_source_gps_accuracy := some 7
    toilet_gps_latitude := some 1, toilet_gps_longitude := some 2
    toilet_gps_altitude := some 3, toilet_gps_accuracy := some 3 }

/-- Consenting household with outcome code 96 (interview_map: unknown). -/
def hh96 : Household :=
  { baseHousehold with
    key := "hh-96", pro_name := "central", location_name := "v1"
    four_1_1 := some 96, four_3_1 := some "dc1"
    interview_date_time_1 := some "2024-03-15 09:00"
    agree_yes := some 1 }

/-- First completed household of the daily tally scenario. -/
def tallyHH1 : Household :=
  { baseHousehold with
    key := "hh-t1", pro_name := "central", location_name := "v1"
    four_1_1 := some 1, four_3_1 := some "dc1"
    interview_date_time_1 := some "2024-03-15 09:00"
    agree_yes := some 1 }

/-- Second completed household of the daily tally scenario. -/
def tallyHH2 : Household :=
  { baseHousehold with
    key := "hh-t2", pro_name := "central", location_name := "v1"
    four_1_1 := some 1, four_3_1 := some "dc1"
    interview_date_time_1 := some "2024-03-15 11:30"
    agree_yes := some 1 }

/-- Refusing household of the daily tally scenario. -/
def tallyHH3 : Household :=
  { baseHousehold with
    key := "hh-t3", pro_name := "central", location_name := "v1"
    four_1_1 := some 3, four_3_1 := some "dc1"
    interview_date_time_1 := some "2024-03-15 14:00"
    agree_yes := some 1 }

/-- Household whose consent flag is present but not set (agree_yes = 0). -/
def consentZeroHH : Household :=
  { baseHousehold with
    key := "hh-c0", pro_name := "central", location_name := "v1"
    four_1_1 := some 1, four_3_1 := some "dc1"
    interview_date_time_1 := some "2024-03-15 09:00"
    agree_yes := some 0 }

/-- Household whose site field differs from the selected site only in
case, with a missing GPS record. -/
def caseSensHH : Household :=
  { baseHousehold with
    key := "hh-case", pro_name := "Central", location_name := "v1"
    four_1_1 := some 1, four_3_1 := some "dc1"
    interview_date_time_1 := some "2024-03-15 09:00"
    agree_yes := some 1 }

/-- Completed household with the unmapped sector code 5 and a well-formed
interview date. -/
def sectorFiveHH : Household :=
  { baseHousehold with
    key := "hh-s5", pro_name := "central", location_name := "v1"
    sector := some 5
    four_1_1 := some 1, four_3_1 := some "dc1"
    interview_date_time_1 := some "2024-03-15 09:00"
    agree_yes := some 1 }

/-- Household with unmapped sector 5, death consent set and 3 reported
deaths. -/
def mortUnknownHH : Household :=
  { baseHousehold with
    key := "hh-m5", pro_name := "central", location_name := "v1"
    sector := some 5
    consent_three_7_1 := some 1, consent_death_three_7_2 := some 3 }

/-- Household with interview-outcome code 4 (interview_map: migrated
out/absent for extended period). -/
def code4HH : Household :=
  { baseHousehold with
    key := "hh-o4", pro_name := "central", location_name := "v1"
    four_1_1 := some 4 }

/-- Household with interview-outcome code 5 (interview_map: no competent
respondent available at home). -/
def code5HH : Household :=
  { baseHousehold with
    key := "hh-o5", pro_name := "central", location_name := "v1"
    four_1_1 := some 5 }

/-- Individual living in the code-4 household. -/
def indOf4 : Individual := { key := "i4", parent_key := some "hh-o4" }

/-- Individual living in the code-5 household. -/
def indOf5 : Individual := { key := "i5", parent_key := some "hh-o5" }

/-- Urban household with death consent and 1 reported death. -/
def mortUrbanHH : Household :=
  { baseHousehold with
    key := "hh-mu", pro_name := "central", sector := some 1
    consent_three_7_1 := some 1, consent_death_three_7_2 := some 1 }

/-- Peri-urban household with death consent and 2 reported deaths. -/
def mortPeriHH : Household :=
  { baseHousehold with
    key := "hh-mp", pro_name := "central", sector := some 2
    consent_three_7_1 := some 1, consent_death_three_7_2 := some 2 }

/-- Settlement household without death consent. -/
def mortSettHH : Household :=
  { baseHousehold with
    key := "hh-ms", pro_name := "central", sector := some 3
    consent_three_7_1 := some 0, consent_death_three_7_2 := some 9 }

/-- Rural household with death consent and 4 reported deaths. -/
def mortRuralHH : Household :=
  { baseHousehold with
    key := "hh-mr", pro_name := "central", sector := some 4
    consent_three_7_1 := some 1, consent_death_three_7_2 := some 4 }

/-- Completed urban household with a well-formed interview date, used to
instantiate the monthly tally theorem. -/
def monthlyUrbanHH : Household :=
  { baseHousehold with
    key := "hh-mu1", pro_name := "central", location_name := "v1"
    sector := some 1
    four_1_1 := some 1, four_3_1 := some "dc1"
    interview_date_time_1 := some "2024-03-15 09:00"
    agree_yes := some 1 }

/-- Concrete month row used to instantiate the grand-total theorem. -/
def monthRowA : MonthRow :=
  { month := "2024-03", urban_hh := 1, urban_pop := 2, periurban_hh := 3,
    periurban_pop := 4, settlement_hh := 5, settlement_pop := 6,
    rural_hh := 7, rural_pop := 8, total_hh := 16, total_pop := 20 }

/-! ## Theorems -/

/-! ### General list lemmas shared by the claim theorems -/

/-- Distributing a list sum over a pointwise sum of functions. -/
theorem sum_map_add {κ M : Type} [AddCommMonoid M] (A B : κ → M) :
    ∀ (ks : List κ),
      (ks.map (fun k => A k + B k)).sum = (ks.map A).sum + (ks.map B).sum := by
  intro ks
  induction ks with
  | nil => simp
  | cons k ks ih =>
    simp only [List.map_cons, List.sum_cons, ih]
    abel

/-- A sum of indicators of a key that does not occur vanishes. -/
theorem sum_map_ite_zero {κ M : Type} [DecidableEq κ] [AddCommMonoid M]
    (x : κ) (c : M) :
    ∀ (ks : List κ), x ∉ ks →
      (ks.map (fun k => if x = k then c else 0)).sum = 0 := by
  intro ks
  induction ks with
  | nil => intro _; simp
  | cons k ks ih =>
    intro hx
    have hxk : ¬ x = k := by
      rintro rfl
      exact hx (List.mem_cons_self _ _)
    have hxks : x ∉ ks := fun hm => hx (List.mem_cons_of_mem _ hm)
    simp [hxk, ih hxks]

/-- A sum of indicators of a key occurring once picks out its value. -/
theorem sum_map_ite_single {κ M : Type} [DecidableEq κ] [AddCommMonoid M]
    (x : κ) (c : M) :
    ∀ (ks : List κ), ks.Nodup → x ∈ ks →
      (ks.map (fun k => if x = k then c else 0)).sum = c := by
  intro ks
  induction ks with
  | nil =>
    intro _ hx
    simp at hx
  | cons k ks ih =>
    intro hnd hx
    rcases List.mem_cons.mp hx with h | hx2
    · subst h
      have hxks : x ∉ ks := (List.nodup_cons.mp hnd).1
      simp [sum_map_ite_zero x c ks hxks]
    · have hxk : ¬ x = k := by
        rintro rfl
        exact (List.nodup_cons.mp hnd).1 hx2
      simp [hxk, ih (List.nodup_cons.mp hnd).2 hx2]

/-- Summing group aggregates over a duplicate-free key list that covers every
element gives the total sum. -/
theorem sum_groups_eq {α κ M : Type} [DecidableEq κ] [AddCommMonoid M]
    (key : α → κ) (w : α → M) (ks : List κ) (hnd : ks.Nodup) :
    ∀ (l : List α), (∀ a, a ∈ l → key a ∈ ks) →
      (ks.map (fun k =>
        ((l.filter (fun a => decide (key a = k))).map w).sum)).sum
        = (l.map w).sum := by
  intro l
  induction l with
  | nil => intro _; simp
  | cons a l ih =>
    intro hcov
    have hmem : key a ∈ ks := hcov a (List.mem_cons_self _ _)
    have hcov2 : ∀ b, b ∈ l → key b ∈ ks := fun b hb =>
      hcov b (List.mem_cons_of_mem _ hb)
    have hstep : ∀ k : κ,
        ((List.filter (fun x => decide (key x = k)) (a :: l)).map w).sum
          = (if key a = k then w a else 0) +
            ((l.filter (fun x => decide (key x = k))).map w).sum := by
      intro k
      by_cases hk : key a = k
      · simp [List.filter_cons, hk]
      · simp [List.filter_cons, hk]
    simp only [hstep]
    rw [sum_map_add (fun k => if key a = k then w a else 0)
      (fun k => ((l.filter (fun x => decide (key x = k))).map w).sum) ks]
    rw [sum_map_ite_single (key a) (w a) ks hnd hmem, ih hcov2]
    simp

/-- Filtering a duplicate-free list for one of its members yields exactly
that member. -/
theorem filter_eq_of_nodup {κ : Type} [DecidableEq κ] :
    ∀ (l : List κ) (a : κ), l.Nodup → a ∈ l →
      l.filter (fun b => decide (b = a)) = [a] := by
  intro l
  induction l with
  | nil =>
    intro a _ ha
    simp at ha
  | cons b l ih =>
    intro a hnd ha
    rcases List.mem_cons.mp ha with h | ha2
    · subst h
      have hnl : a ∉ l := (List.nodup_cons.mp hnd).1
      have hfl : l.filter (fun c => decide (c = a)) = [] := by
        rw [List.filter_eq_nil_iff]
        intro c hc
        simp only [decide_eq_true_eq]
        rintro rfl
        exact hnl hc
      simp [List.filter_cons, hfl]
    · have hba : ¬ b = a := by
        rintro rfl
        exact (List.nodup_cons.mp hnd).1 ha2
      simp [List.filter_cons, hba, ih a (List.nodup_cons.mp hnd).2 ha2]

/-- Two sums over duplicate-free key lists agree when the smaller list is
contained in the larger and the function vanishes off the smaller one. -/
theorem sum_over_nodup_subset {κ M : Type} [DecidableEq κ] [AddCommMonoid M]
    (F : κ → M) :
    ∀ (ks d : List κ), d.Nodup → ks.Nodup → (∀ k, k ∈ d → k ∈ ks) →
      (∀ k, k ∈ ks → k ∉ d → F k = 0) →
      (d.map F).sum = (ks.map F).sum := by
  intro ks
  induction ks with
  | nil =>
    intro d _ _ hsub _
    have hd : d = [] := by
      cases d with
      | nil => rfl
      | cons a d => exact absurd (hsub a (List.mem_cons_self _ _)) (List.not_mem_nil a)
    simp [hd]
  | cons k ks ih =>
    intro d hd hks hsub hvan
    by_cases hk : k ∈ d
    · have hperm : d.Perm (k :: d.erase k) := List.perm_cons_erase hk
      have hsum : (d.map F).sum = F k + ((d.erase k).map F).sum := by
        have hp := (hperm.map F).sum_eq
        simpa using hp
      have hde : (d.erase k).Nodup := hd.erase k
      have hsub2 : ∀ x, x ∈ d.erase k → x ∈ ks := by
        intro x hx
        have hxk : x ≠ k := ((List.Nodup.mem_erase_iff hd).mp hx).1
        have hxd : x ∈ d := ((List.Nodup.mem_erase_iff hd).mp hx).2
        rcases List.mem_cons.mp (hsub x hxd) with h1 | h2
        · exact absurd h1 hxk
        · exact h2
      have hvan2 : ∀ x, x ∈ ks → x ∉ d.erase k → F x = 0 := by
        intro x hx hxe
        have hxk : x ≠ k := by
          rintro rfl
          exact (List.nodup_cons.mp hks).1 hx
        by_cases hxd : x ∈ d
        · exact absurd ((List.Nodup.mem_erase_iff hd).mpr ⟨hxk, hxd⟩) hxe
        · exact hvan x (List.mem_cons_of_mem _ hx) hxd
      rw [hsum, ih (d.erase k) hde (List.nodup_cons.mp hks).2 hsub2 hvan2]
      simp
    · have hFk : F k = 0 := hvan k (List.mem_cons_self _ _) hk
      have hsub2 : ∀ x, x ∈ d → x ∈ ks := by
        intro x hx
        rcases List.mem_cons.mp (hsub x hx) with h1 | h2
        · subst h1
          exact absurd hx hk
        · exact h2
      have hvan2 : ∀ x, x ∈ ks → x ∉ d → F x = 0 := fun x hx hxd =>
        hvan x (List.mem_cons_of_mem _ hx) hxd
      rw [ih d hd (List.nodup_cons.mp hks).2 hsub2 hvan2]
      simp [hFk]

/-- Filtering commutes with mapping. -/
theorem filter_map_comm {α β : Type} (g : α → β) (p : β → Bool) :
    ∀ (l : List α),
      (l.map g).filter p = (l.filter (fun a => p (g a))).map g := by
  intro l
  induction l with
  | nil => simp
  | cons a l ih =>
    by_cases h : p (g a) <;> simp [h, ih]

/-- Summing the non-null values of a nullable integer list equals summing
the list with null read as zero. -/
theorem sum_filterMap_id :
    ∀ (vals : List (Option Int)),
      ((vals.filterMap id).sum : Int) =
        ((vals.map (fun v => v.getD 0)).sum : Int) := by
  intro vals
  induction vals with
  | nil => simp
  | cons v vals ih =>
    cases v with
    | none => simp [List.filterMap_cons, ih]
    | some a => simp [List.filterMap_cons, ih]

/-- Every household of a group falls in exactly one of the seven outcome
buckets of the daily tally: the six coded columns or the out-of-range rest. -/
theorem length_eq_outcome_buckets (g : List Household) :
    g.length =
      g.countP (fun h => decide (h.four_1_1 = some 1)) +
      g.countP (fun h => decide (h.four_1_1 = some 2)) +
      g.countP (fun h => decide (h.four_1_1 = some 3)) +
      g.countP (fun h => decide (h.four_1_1 = some 4)) +
      g.countP (fun h => decide (h.four_1_1 = some 5)) +
      g.countP (fun h => decide (h.four_1_1 = some 6)) +
      outsideSixCount g := by
  induction g with
  | nil => simp [outsideSixCount]
  | cons h g ih =>
    simp only [outsideSixCount, List.countP_cons, List.length_cons] at ih ⊢
    rcases hc : h.four_1_1 with _ | n
    · simp [hc, sixCodes] at ih ⊢
      omega
    · by_cases e1 : n = 1
      · subst e1; simp [hc, sixCodes] at ih ⊢; omega
      · by_cases e2 : n = 2
        · subst e2; simp [hc, sixCodes] at ih ⊢; omega
        · by_cases e3 : n = 3
          · subst e3; simp [hc, sixCodes] at ih ⊢; omega
          · by_cases e4 : n = 4
            · subst e4; simp [hc, sixCodes] at ih ⊢; omega
            · by_cases e5 : n = 5
              · subst e5; simp [hc, sixCodes] at ih ⊢; omega
              · by_cases e6 : n = 6
                · subst e6; simp [hc, sixCodes] at ih ⊢; omega
                · simp [hc, sixCodes, e1, e2, e3, e4, e5, e6] at ih ⊢
                  omega

/-- C1 (code-bug evidence): the interview-outcome pivot assigns status code
4 to the row labelled No competent respondent and status code 5 to the row
labelled Absent for extended period, while the dashboard's own
interview_map declares code 4 to be the migrated/absent outcome and code 5
the no-competent-respondent outcome.  Evaluating the pivot on one code-4
household and one code-5 household, each with one linked individual, makes
the swap visible. -/
theorem outcomesPivot_swaps_codes_4_and_5 :
    outcomesPivot "central" [code4HH, code5HH] [indOf4, indOf5] =
      [ { outcome_type := "Completed", households := 0, population := 0 }
      , { outcome_type := "Partially completed", households := 0, population := 0 }
      , { outcome_type := "Refusal", households := 0, population := 0 }
      , { outcome_type := "No competent respondent", households := 1, population := 1 }
      , { outcome_type := "Absent for extended period", households := 1, population := 1 } ] ∧
    code4HH.four_1_1 = some 4 ∧ code5HH.four_1_1 = some 5 ∧
    interview_map 4 =
      some "Entire household migrated out/absent for extended period" ∧
    interview_map 5 = some "No competent respondent available at home" := by
  refine ⟨by decide, rfl, rfl, ?_, ?_⟩ <;> decide

/-- C2 counterexample: on a single consenting household with outcome code
96 the daily tally emits a row whose total_interviews is 1 while all six
outcome-count columns are 0, so the row total does not equal the sum of the
six columns. -/
theorem dailyTally_total_mismatch_on_code96 :
    ¬ (∀ r ∈ dailyTally "central" [hh96],
        r.total_interviews = sixSum r) := by
  decide

/-- C2 amended: every daily tally row's total_interviews equals the sum of
its six outcome-count columns plus the number of households of its group
whose outcome code is null or outside 1-6 (so equality with the plain
six-column sum holds exactly when every code of the group is in 1-6); and
the scenario of three consenting households with outcome codes 1, 1, 3 and
one shared collector, village and interview date yields the single row with
completed 2, partially_completed 0, refused 1 and total_interviews 3. -/
theorem dailyTally_row_total_buckets :
    (∀ (site : String) (hhs : List Household)
        (k : Option String × String × Option String),
        k ∈ dailyKeys site hhs →
        (dailyRow k (dailyGroup site hhs k)).total_interviews =
          sixSum (dailyRow k (dailyGroup site hhs k)) +
            outsideSixCount (dailyGroup site hhs k)) ∧
    dailyTally "central" [tallyHH1, tallyHH2, tallyHH3] =
      [ { data_collector := some "dc1", village_name := "v1",
          collection_date := some "2024-03-15",
          completed := 2, partially_completed := 0, refused := 1,
          could_not_be_located := 0, other := 0, dont_know := 0,
          total_interviews := 3 } ] := by
  constructor
  · intro site hhs k _
    have hb := length_eq_outcome_buckets (dailyGroup site hhs k)
    simp only [dailyRow, sixSum]
    omega
  · decide

/-- C2 amended witness: the bucket identity applied to the concrete group
of the code-96 household. -/
theorem dailyTally_row_total_buckets_witness :
    (dailyRow (some "dc1", "v1", some "2024-03-15")
        (dailyGroup "central" [hh96]
          (some "dc1", "v1", some "2024-03-15"))).total_interviews =
      sixSum (dailyRow (some "dc1", "v1", some "2024-03-15")
        (dailyGroup "central" [hh96]
          (some "dc1", "v1", some "2024-03-15"))) +
        outsideSixCount (dailyGroup "central" [hh96]
          (some "dc1", "v1", some "2024-03-15")) :=
  dailyTally_row_total_buckets.1 "central" [hh96]
    (some "dc1", "v1", some "2024-03-15") (by decide)

/-- C3 counterexample: a household of the selected site whose consent flag
is present but not set (agree_yes = 0) passes the daily tally's
IS NOT NULL filter and contributes a full row, so unconsented households
are not excluded from the daily tally. -/
theorem dailyTally_includes_consent_zero :
    consentZeroHH.agree_yes = some 0 ∧
    consentZeroHH ∈ dailyFiltered "central" [consentZeroHH] ∧
    dailyTally "central" [consentZeroHH] =
      [ { data_collector := some "dc1", village_name := "v1",
          collection_date := some "2024-03-15",
          completed := 1, partially_completed := 0, refused := 0,
          could_not_be_located := 0, other := 0, dont_know := 0,
          total_interviews := 1 } ] := by
  refine ⟨rfl, by decide, by decide⟩

/-- C3 amended: a household contributes to the daily tally exactly when its
site matches and its consent field is non-null — any non-null consent value
passes, and only households with a null consent field are excluded. -/
theorem dailyFiltered_iff_consent_nonnull :
    ∀ (site : String) (hhs : List Household) (h : Household),
      h ∈ dailyFiltered site hhs ↔
        h ∈ hhs ∧ h.pro_name = site ∧ h.agree_yes ≠ none := by
  intro site hhs h
  simp only [dailyFiltered, List.mem_filter, Bool.and_eq_true,
    decide_eq_true_eq]
  tauto

/-- C3 amended witness: the filter membership evaluated on the consent-0
household. -/
theorem dailyFiltered_iff_consent_nonnull_witness :
    consentZeroHH ∈ dailyFiltered "central" [consentZeroHH] :=
  (dailyFiltered_iff_consent_nonnull "central" [consentZeroHH]
    consentZeroHH).mpr (by decide)

/-- C4 counterexample: a completed household with the unmapped sector code
5 and a well-formed date yields a month row whose total household count is
1 while all four sector household counts are 0, so the row total is not the
sum of the four sector counts. -/
theorem monthlyTally_total_mismatch_on_sector5 :
    ¬ (∀ r ∈ monthlyRows "central" [sectorFiveHH] [],
        r.total_hh =
          r.urban_hh + r.periurban_hh + r.settlement_hh + r.rural_hh) := by
  decide

/-- C4 amended: for every month row of the monthly progressive tally all of
whose contributing households carry a mapped sector code 1-4, the row-total
household count is the sum of the four sector household counts and the
row-total population count is the sum of the four sector population counts
(households with unmapped sector values contribute to the row totals but to
none of the four sector columns). -/
theorem monthlyRow_total_eq_four_sectors :
    ∀ (site : String) (hhs : List Household) (inds : List Individual)
      (m : String), m ∈ monthsOf site hhs →
      (∀ h, h ∈ monthGroup site hhs m → h.sector ∈ fourSectorCodes) →
      (monthRow site hhs inds m).total_hh =
        (monthRow site hhs inds m).urban_hh +
        (monthRow site hhs inds m).periurban_hh +
        (monthRow site hhs inds m).settlement_hh +
        (monthRow site hhs inds m).rural_hh ∧
      (monthRow site hhs inds m).total_pop =
        (monthRow site hhs inds m).urban_pop +
        (monthRow site hhs inds m).periurban_pop +
        (monthRow site hhs inds m).settlement_pop +
        (monthRow site hhs inds m).rural_pop := by
  intro site hhs inds m _ hcov
  have hd : ((List.map Household.sector (monthGroup site hhs m)).dedup).Nodup :=
    List.nodup_dedup _
  have hks : fourSectorCodes.Nodup := by decide
  have hsub : ∀ s, s ∈ (List.map Household.sector (monthGroup site hhs m)).dedup →
      s ∈ fourSectorCodes := by
    intro s hs
    rw [List.mem_dedup] at hs
    rcases List.mem_map.mp hs with ⟨h, hh, hkey⟩
    rw [← hkey]
    exact hcov h hh
  have hempty : ∀ s,
      s ∉ (List.map Household.sector (monthGroup site hhs m)).dedup →
      sectorGroup (monthGroup site hhs m) s = [] := by
    intro s hnot
    rw [List.mem_dedup] at hnot
    rw [sectorGroup, List.filter_eq_nil_iff]
    intro h hh
    simp only [decide_eq_true_eq]
    intro heq
    exact hnot (List.mem_map.mpr ⟨h, hh, heq⟩)
  constructor
  · have h1 := sum_over_nodup_subset
      (fun s => distinctHouseholdCount (sectorGroup (monthGroup site hhs m) s))
      fourSectorCodes
      ((List.map Household.sector (monthGroup site hhs m)).dedup)
      hd hks hsub
      (by
        intro s _ hnot
        simp [hempty s hnot, distinctHouseholdCount])
    simp only [monthRow, monthTotalHouseholds]
    rw [h1]
    simp [fourSectorCodes]
    omega
  · have h2 := sum_over_nodup_subset
      (fun s => linkedPopulation (sectorGroup (monthGroup site hhs m) s) inds)
      fourSectorCodes
      ((List.map Household.sector (monthGroup site hhs m)).dedup)
      hd hks hsub
      (by
        intro s _ hnot
        simp [hempty s hnot, linkedPopulation])
    simp only [monthRow, monthTotalPopulation]
    rw [h2]
    simp [fourSectorCodes]
    omega

/-- C4 amended witness: the identity evaluated on a single completed urban
household of March 2024. -/
theorem monthlyRow_total_eq_four_sectors_witness :
    (monthRow "central" [monthlyUrbanHH] [] "2024-03").total_hh =
      (monthRow "central" [monthlyUrbanHH] [] "2024-03").urban_hh +
      (monthRow "central" [monthlyUrbanHH] [] "2024-03").periurban_hh +
      (monthRow "central" [monthlyUrbanHH] [] "2024-03").settlement_hh +
      (monthRow "central" [monthlyUrbanHH] [] "2024-03").rural_hh ∧
    (monthRow "central" [monthlyUrbanHH] [] "2024-03").total_pop =
      (monthRow "central" [monthlyUrbanHH] [] "2024-03").urban_pop +
      (monthRow "central" [monthlyUrbanHH] [] "2024-03").periurban_pop +
      (monthRow "central" [monthlyUrbanHH] [] "2024-03").settlement_pop +
      (monthRow "central" [monthlyUrbanHH] [] "2024-03").rural_pop :=
  monthlyRow_total_eq_four_sectors "central" [monthlyUrbanHH] [] "2024-03"
    (by decide) (by decide)

/-- C5: when at least one month row is emitted, the displayed monthly table
carries exactly one extra final row; that grand-total row is recomputed
from the emitted month rows themselves, and each of its ten numeric cells
equals the column-wise sum of that column over all preceding rows of the
displayed table. -/
theorem monthlyReport_grandTotal_last (rows : List MonthRow)
    (hne : rows ≠ []) :
    (monthlyReportTable rows).dropLast = rows ∧
    (monthlyReportTable rows).getLast? = some
      { month := "GRAND TOTAL"
        urban_hh :=
          (((monthlyReportTable rows).dropLast).map MonthRow.urban_hh).sum
        urban_pop :=
          (((monthlyReportTable rows).dropLast).map MonthRow.urban_pop).sum
        periurban_hh :=
          (((monthlyReportTable rows).dropLast).map MonthRow.periurban_hh).sum
        periurban_pop :=
          (((monthlyReportTable rows).dropLast).map MonthRow.periurban_pop).sum
        settlement_hh :=
          (((monthlyReportTable rows).dropLast).map MonthRow.settlement_hh).sum
        settlement_pop :=
          (((monthlyReportTable rows).dropLast).map MonthRow.settlement_pop).sum
        rural_hh :=
          (((monthlyReportTable rows).dropLast).map MonthRow.rural_hh).sum
        rural_pop :=
          (((monthlyReportTable rows).dropLast).map MonthRow.rural_pop).sum
        total_hh :=
          (((monthlyReportTable rows).dropLast).map MonthRow.total_hh).sum
        total_pop :=
          (((monthlyReportTable rows).dropLast).map MonthRow.total_pop).sum } := by
  have hni : rows.isEmpty = false := by
    cases rows with
    | nil => exact absurd rfl hne
    | cons a l => rfl
  have htab : monthlyReportTable rows = rows ++ [grandTotalRow rows] := by
    simp [monthlyReportTable, hni]
  have hdrop : (monthlyReportTable rows).dropLast = rows := by
    rw [htab]
    exact List.dropLast_concat
  refine ⟨hdrop, ?_⟩
  rw [hdrop, htab, List.getLast?_concat]
  rfl

/-- C5 witness: the grand-total property evaluated on a one-row table. -/
theorem monthlyReport_grandTotal_last_witness :
    (monthlyReportTable [monthRowA]).dropLast = [monthRowA] ∧
    (monthlyReportTable [monthRowA]).getLast? = some
      { month := "GRAND TOTAL"
        urban_hh :=
          (((monthlyReportTable [monthRowA]).dropLast).map MonthRow.urban_hh).sum
        urban_pop :=
          (((monthlyReportTable [monthRowA]).dropLast).map MonthRow.urban_pop).sum
        periurban_hh :=
          (((monthlyReportTable [monthRowA]).dropLast).map MonthRow.periurban_hh).sum
        periurban_pop :=
          (((monthlyReportTable [monthRowA]).dropLast).map MonthRow.periurban_pop).sum
        settlement_hh :=
          (((monthlyReportTable [monthRowA]).dropLast).map MonthRow.settlement_hh).sum
        settlement_pop :=
          (((monthlyReportTable [monthRowA]).dropLast).map MonthRow.settlement_pop).sum
        rural_hh :=
          (((monthlyReportTable [monthRowA]).dropLast).map MonthRow.rural_hh).sum
        rural_pop :=
          (((monthlyReportTable [monthRowA]).dropLast).map MonthRow.rural_pop).sum
        total_hh :=
          (((monthlyReportTable [monthRowA]).dropLast).map MonthRow.total_hh).sum
        total_pop :=
          (((monthlyReportTable [monthRowA]).dropLast).map MonthRow.total_pop).sum } :=
  monthlyReport_grandTotal_last [monthRowA] (by decide)

/-- C6: a consenting household of the selected site appears in the GPS
defect detail rows exactly when one of its three GPS triples is incomplete,
has accuracy above 5 or has null accuracy; and on the scenario household
whose water-source accuracy is 7 with all other triples complete and
accurate, the household is flagged, the water-source inaccurate counter is
1 and the household and toilet inaccurate counters are 0. -/
theorem missingGps_membership_and_counters :
    (∀ (site : String) (hhs : List Household) (h : Household),
        h ∈ hhs → h.agree_yes = some 1 → h.pro_name = site →
        (h ∈ missingGpsRows site hhs ↔
          (hhTripleDefect h = true ∨ waterTripleDefect h = true ∨
            toiletTripleDefect h = true))) ∧
    (missingGpsRows "central" [gpsScenarioHH] = [gpsScenarioHH] ∧
      waterInaccurateCount (missingGpsRows "central" [gpsScenarioHH]) = 1 ∧
      hhInaccurateCount (missingGpsRows "central" [gpsScenarioHH]) = 0 ∧
      toiletInaccurateCount (missingGpsRows "central" [gpsScenarioHH]) = 0) := by
  constructor
  · intro site hhs h hmem hagree hsite
    simp only [missingGpsRows, List.mem_filter, Bool.and_eq_true,
      Bool.or_eq_true, decide_eq_true_eq]
    tauto
  · refine ⟨by decide, by decide, by decide, by decide⟩

/-- C6 witness: the flagged scenario household is a member of the detail
rows by the membership characterisation. -/
theorem missingGps_membership_and_counters_witness :
    gpsScenarioHH ∈ missingGpsRows "central" [gpsScenarioHH] :=
  (missingGps_membership_and_counters.1 "central" [gpsScenarioHH]
    gpsScenarioHH (by decide) (by decide) (by decide)).mpr
    (Or.inr (Or.inl (by decide)))

/-- C7 counterexample: a household whose site field differs from the
selected identifier only in letter case is kept by the in-memory overview
filter (case-insensitive) but excluded from the SQL-backed auditor and
tally scopes (case-sensitive pro_name = site), so the downstream views do
not share one case-insensitive site rule. -/
theorem siteViews_case_sensitivity_mismatch :
    lowerStr caseSensHH.pro_name = lowerStr "central" ∧
    caseSensHH ∈ siteHouseholds "central" [caseSensHH] ∧
    missingGpsRows "central" [caseSensHH] = [] ∧
    dailyFiltered "central" [caseSensHH] = [] ∧
    monthlyFiltered "central" [caseSensHH] = [] ∧
    siteExact "central" [caseSensHH] = [] := by
  refine ⟨by decide, by decide, by decide, by decide, by decide, by decide⟩

/-- C7 amended: the in-memory overview filter admits a household exactly
when its site field matches the selected identifier case-insensitively,
while the SQL-backed views (GPS defect scope, daily tally, monthly tally,
and the shared exact site restriction of the outcome and mortality queries)
admit a household only when its site field equals the identifier exactly,
case-sensitively. -/
theorem siteScoping_amended :
    (∀ (site : String) (hhs : List Household) (h : Household),
        h ∈ siteHouseholds site hhs ↔
          h ∈ hhs ∧ lowerStr h.pro_name = lowerStr site) ∧
    (∀ (site : String) (hhs : List Household) (h : Household),
        h ∈ siteExact site hhs ↔ h ∈ hhs ∧ h.pro_name = site) ∧
    (∀ (site : String) (hhs : List Household) (h : Household),
        h ∈ missingGpsRows site hhs → h.pro_name = site) ∧
    (∀ (site : String) (hhs : List Household) (h : Household),
        h ∈ dailyFiltered site hhs → h.pro_name = site) ∧
    (∀ (site : String) (hhs : List Household) (h : Household),
        h ∈ monthlyFiltered site hhs → h.pro_name = site) := by
  refine ⟨?_, ?_, ?_, ?_, ?_⟩
  · intro site hhs h
    simp [siteHouseholds, List.mem_filter]
  · intro site hhs h
    simp [siteExact, List.mem_filter]
  · intro site hhs h hmem
    simp only [missingGpsRows, List.mem_filter, Bool.and_eq_true,
      decide_eq_true_eq] at hmem
    tauto
  · intro site hhs h hmem
    simp only [dailyFiltered, List.mem_filter, Bool.and_eq_true,
      decide_eq_true_eq] at hmem
    tauto
  · intro site hhs h hmem
    simp only [monthlyFiltered, List.mem_filter, Bool.and_eq_true,
      decide_eq_true_eq] at hmem
    tauto

/-- C7 amended witness: the exact-match direction applied to the flagged
scenario household. -/
theorem siteScoping_amended_witness :
    gpsScenarioHH.pro_name = "central" :=
  siteScoping_amended.2.2.1 "central" [gpsScenarioHH] gpsScenarioHH
    (by decide)

/-- C8 counterexample: when the GPS defect computation fails, the Data
Quality tab's outer exception handler ends the whole tab, so the
missing-respondent and missing-individual checks are not computed even
though their own computations would succeed — the failure is not confined
to the failing view. -/
theorem gpsFailure_suppresses_sibling_checks :
    runDataQualityTab (Except.error "gps query failed")
        (Except.ok (1 : ℕ)) (Except.ok (2 : ℕ)) =
      ((none : Option ℕ), (none : Option ℕ), (none : Option ℕ)) ∧
    ((none : Option ℕ), (none : Option ℕ), (none : Option ℕ)) ≠
      ((none : Option ℕ), some (1 : ℕ), some (2 : ℕ)) := by
  exact ⟨rfl, by decide⟩

/-- C8 amended: failures of the four Report-tab aggregate views are
isolated from one another, and once the GPS computation has succeeded a
failure of the missing-respondent or missing-individual check is isolated
as well; but a GPS defect-computation failure suppresses both sibling
quality checks. -/
theorem viewFailure_isolation :
    (∀ (g : ℕ) (resp ind : Except String ℕ),
        runDataQualityTab (Except.ok g) resp ind =
          (some g, resp.toOption, ind.toOption)) ∧
    (∀ (d m o t : Except String ℕ),
        runReportTab d m o t =
          (d.toOption, m.toOption, o.toOption, t.toOption)) ∧
    (∀ (e : String) (resp ind : Except String ℕ),
        runDataQualityTab (Except.error e) resp ind =
          ((none : Option ℕ), (none : Option ℕ), (none : Option ℕ))) :=
  ⟨fun _ _ _ => rfl, fun _ _ _ _ => rfl, fun _ _ _ => rfl⟩

/-- C9 counterexample: a site whose only household carries the unmapped
sector code 5 (with death consent and 3 reported deaths) produces the rows
TOTAL and Unknown — not one row per sector in the fixed
Urban, Peri-Urban, Settlement, Rural, TOTAL order. -/
theorem mortalityTable_shape_mismatch :
    mortalityTable "central" [mortUnknownHH] =
      [ { sector := "TOTAL", households_with_death := 1,
          total_deaths := some 3 },
        { sector := "Unknown", households_with_death := 1,
          total_deaths := some 3 } ] ∧
    (mortalityTable "central" [mortUnknownHH]).map MortalityRow.sector ≠
      ["Urban", "Peri-Urban", "Settlement", "Rural", "TOTAL"] := by
  exact ⟨by decide, by decide⟩

/-- C9 amended: when every household of the site carries a mapped sector
code 1-4 and each of the four sectors occurs, the mortality table is
exactly the four sector rows in the fixed order Urban, Peri-Urban,
Settlement, Rural followed by the TOTAL row; and whenever all four sector
death sums are non-null numbers, the TOTAL row's death sum is their sum.
(A missing sector emits no row; unmapped sector values emit extra Unknown
rows which the TOTAL row also absorbs; and a sector group whose consenting
households all have null death counts renders a null SUM cell, in which
case no numeric identity is displayed.) -/
theorem mortalityTable_fixed_shape :
    ∀ (site : String) (hhs : List Household),
      (∀ h, h ∈ siteExact site hhs → h.sector ∈ fourSectorCodes) →
      some 1 ∈ (siteExact site hhs).map Household.sector →
      some 2 ∈ (siteExact site hhs).map Household.sector →
      some 3 ∈ (siteExact site hhs).map Household.sector →
      some 4 ∈ (siteExact site hhs).map Household.sector →
      mortalityTable site hhs =
        [ mortSectorRow (siteExact site hhs) (some 1),
          mortSectorRow (siteExact site hhs) (some 2),
          mortSectorRow (siteExact site hhs) (some 3),
          mortSectorRow (siteExact site hhs) (some 4),
          mortTotalRow (siteExact site hhs) ] ∧
      (∀ (d1 d2 d3 d4 : Int),
        (mortSectorRow (siteExact site hhs) (some 1)).total_deaths = some d1 →
        (mortSectorRow (siteExact site hhs) (some 2)).total_deaths = some d2 →
        (mortSectorRow (siteExact site hhs) (some 3)).total_deaths = some d3 →
        (mortSectorRow (siteExact site hhs) (some 4)).total_deaths = some d4 →
        (mortTotalRow (siteExact site hhs)).total_deaths =
          some (d1 + d2 + d3 + d4)) := by
  intro site hhs hcov h1m h2m h3m h4m
  have hunf : mortalityTable site hhs =
      orderMortRows
        ((((siteExact site hhs).map Household.sector).dedup).map
          (mortSectorRow (siteExact site hhs)) ++
          [mortTotalRow (siteExact site hhs)]) := rfl
  set f := siteExact site hhs with hfeq
  set d := (f.map Household.sector).dedup with hdeq
  have hd : d.Nodup := List.nodup_dedup _
  have hsub : ∀ s, s ∈ d → s ∈ fourSectorCodes := by
    intro s hs
    rw [hdeq, List.mem_dedup] at hs
    rcases List.mem_map.mp hs with ⟨h, hh, hkey⟩
    rw [← hkey]
    exact hcov h hh
  have hd1 : (some 1 : Option Int) ∈ d := by
    rw [hdeq, List.mem_dedup]; exact h1m
  have hd2 : (some 2 : Option Int) ∈ d := by
    rw [hdeq, List.mem_dedup]; exact h2m
  have hd3 : (some 3 : Option Int) ∈ d := by
    rw [hdeq, List.mem_dedup]; exact h3m
  have hd4 : (some 4 : Option Int) ∈ d := by
    rw [hdeq, List.mem_dedup]; exact h4m
  have hA1 : (d.map (mortSectorRow f)).filter
      (fun r => decide (mortOrderKey r = 1)) = [mortSectorRow f (some 1)] := by
    rw [filter_map_comm]
    have hcg : d.filter
        (fun s => decide (mortOrderKey (mortSectorRow f s) = 1)) =
        d.filter (fun s => decide (s = (some 1 : Option Int))) := by
      apply List.filter_congr
      intro s hs
      have hm := hsub s hs
      simp only [fourSectorCodes, List.mem_cons, List.not_mem_nil,
        or_false] at hm
      rcases hm with rfl | rfl | rfl | rfl <;> rfl
    rw [hcg, filter_eq_of_nodup d (some 1) hd hd1]
    rfl
  have hA2 : (d.map (mortSectorRow f)).filter
      (fun r => decide (mortOrderKey r = 2)) = [mortSectorRow f (some 2)] := by
    rw [filter_map_comm]
    have hcg : d.filter
        (fun s => decide (mortOrderKey (mortSectorRow f s) = 2)) =
        d.filter (fun s => decide (s = (some 2 : Option Int))) := by
      apply List.filter_congr
      intro s hs
      have hm := hsub s hs
      simp only [fourSectorCodes, List.mem_cons, List.not_mem_nil,
        or_false] at hm
      rcases hm with rfl | rfl | rfl | rfl <;> rfl
    rw [hcg, filter_eq_of_nodup d (some 2) hd hd2]
    rfl
  have hA3 : (d.map (mortSectorRow f)).filter
      (fun r => decide (mortOrderKey r = 3)) = [mortSectorRow f (some 3)] := by
    rw [filter_map_comm]
    have hcg : d.filter
        (fun s => decide (mortOrderKey (mortSectorRow f s) = 3)) =
        d.filter (fun s => decide (s = (some 3 : Option Int))) := by
      apply List.filter_congr
      intro s hs
      have hm := hsub s hs
      simp only [fourSectorCodes, List.mem_cons, List.not_mem_nil,
        or_false] at hm
      rcases hm with rfl | rfl | rfl | rfl <;> rfl
    rw [hcg, filter_eq_of_nodup d (some 3) hd hd3]
    rfl
  have hA4 : (d.map (mortSectorRow f)).filter
      (fun r => decide (mortOrderKey r = 4)) = [mortSectorRow f (some 4)] := by
    rw [filter_map_comm]
    have hcg : d.filter
        (fun s => decide (mortOrderKey (mortSectorRow f s) = 4)) =
        d.filter (fun s => decide (s = (some 4 : Option Int))) := by
      apply List.filter_congr
      intro s hs
      have hm := hsub s hs
      simp only [fourSectorCodes, List.mem_cons, List.not_mem_nil,
        or_false] at hm
      rcases hm with rfl | rfl | rfl | rfl <;> rfl
    rw [hcg, filter_eq_of_nodup d (some 4) hd hd4]
    rfl
  have hA5 : (d.map (mortSectorRow f)).filter
      (fun r => decide (mortOrderKey r = 5)) = [] := by
    rw [filter_map_comm]
    have hnil : d.filter
        (fun s => decide (mortOrderKey (mortSectorRow f s) = 5)) = [] := by
      rw [List.filter_eq_nil_iff]
      intro s hs
      have hm := hsub s hs
      simp only [fourSectorCodes, List.mem_cons, List.not_mem_nil,
        or_false] at hm
      rcases hm with rfl | rfl | rfl | rfl
      · have hk : mortOrderKey (mortSectorRow f (some 1)) = 1 := rfl
        simp [hk]
      · have hk : mortOrderKey (mortSectorRow f (some 2)) = 2 := rfl
        simp [hk]
      · have hk : mortOrderKey (mortSectorRow f (some 3)) = 3 := rfl
        simp [hk]
      · have hk : mortOrderKey (mortSectorRow f (some 4)) = 4 := rfl
        simp [hk]
    rw [hnil]
    rfl
  have hA6 : (d.map (mortSectorRow f)).filter
      (fun r => decide (mortOrderKey r = 6)) = [] := by
    rw [filter_map_comm]
    have hnil : d.filter
        (fun s => decide (mortOrderKey (mortSectorRow f s) = 6)) = [] := by
      rw [List.filter_eq_nil_iff]
      intro s hs
      have hm := hsub s hs
      simp only [fourSectorCodes, List.mem_cons, List.not_mem_nil,
        or_false] at hm
      rcases hm with rfl | rfl | rfl | rfl
      · have hk : mortOrderKey (mortSectorRow f (some 1)) = 1 := rfl
        simp [hk]
      · have hk : mortOrderKey (mortSectorRow f (some 2)) = 2 := rfl
        simp [hk]
      · have hk : mortOrderKey (mortSectorRow f (some 3)) = 3 := rfl
        simp [hk]
      · have hk : mortOrderKey (mortSectorRow f (some 4)) = 4 := rfl
        simp [hk]
    rw [hnil]
    rfl
  have hkt : mortOrderKey (mortTotalRow f) = 5 := rfl
  constructor
  · rw [hunf]
    simp only [orderMortRows, List.filter_append]
    rw [hA1, hA2, hA3, hA4, hA5, hA6]
    simp [List.filter_cons, hkt]
  · intro d1 d2 d3 d4 h1 h2 h3 h4
    have hsplit : ∀ (s : Option Int) (dv : Int),
        sqlSumInt ((f.filter (fun a => decide (a.sector = s))).map
          deathSumInput) = some dv →
        ((f.filter (fun a => decide (a.sector = s))).map
          deathSumInput).filterMap id ≠ [] ∧
        (((f.filter (fun a => decide (a.sector = s))).map
          deathSumInput).filterMap id).sum = dv := by
      intro s dv hv
      rw [sqlSumInt] at hv
      by_cases he : ((f.filter (fun a => decide (a.sector = s))).map
          deathSumInput).filterMap id = []
      · rw [if_pos he] at hv
        exact absurd hv (by simp)
      · rw [if_neg he] at hv
        exact ⟨he, Option.some.inj hv⟩
    obtain ⟨hne1, hs1⟩ := hsplit (some 1) d1 h1
    obtain ⟨_, hs2⟩ := hsplit (some 2) d2 h2
    obtain ⟨_, hs3⟩ := hsplit (some 3) d3 h3
    obtain ⟨_, hs4⟩ := hsplit (some 4) d4 h4
    have htne : (f.map deathSumInput).filterMap id ≠ [] := by
      rcases List.exists_mem_of_ne_nil _ hne1 with ⟨b, hb⟩
      rcases List.mem_filterMap.mp hb with ⟨v, hv, hvb⟩
      rcases List.mem_map.mp hv with ⟨h, hhg, hveq⟩
      have hhf : h ∈ f := List.mem_of_mem_filter hhg
      have hbmem : b ∈ (f.map deathSumInput).filterMap id :=
        List.mem_filterMap.mpr
          ⟨deathSumInput h, List.mem_map.mpr ⟨h, hhf, rfl⟩, by
            rw [hveq]; exact hvb⟩
      exact List.ne_nil_of_mem hbmem
    have egrp : ∀ (s : Option Int) (dv : Int),
        (((f.filter (fun a => decide (a.sector = s))).map
          deathSumInput).filterMap id).sum = dv →
        ((f.filter (fun a => decide (a.sector = s))).map
          ((fun v => Option.getD v 0) ∘ deathSumInput)).sum = dv := by
      intro s dv hv
      have hx := sum_filterMap_id
        ((f.filter (fun a => decide (a.sector = s))).map deathSumInput)
      rw [hv, List.map_map] at hx
      exact hx.symm
    have e1 := egrp (some 1) d1 hs1
    have e2 := egrp (some 2) d2 hs2
    have e3 := egrp (some 3) d3 hs3
    have e4 := egrp (some 4) d4 hs4
    have hw := sum_groups_eq Household.sector
      ((fun v => Option.getD v 0) ∘ deathSumInput) fourSectorCodes
      (by decide) f hcov
    show sqlSumInt (f.map deathSumInput) = some (d1 + d2 + d3 + d4)
    rw [sqlSumInt, if_neg htne]
    congr 1
    have hx := sum_filterMap_id (f.map deathSumInput)
    rw [List.map_map] at hx
    rw [hx, ← hw]
    simp only [fourSectorCodes, List.map_cons, List.map_nil, List.sum_cons,
      List.sum_nil]
    rw [e1, e2, e3, e4]
    omega

/-- C9 amended witness: the fixed five-row shape and the TOTAL death sum
evaluated on one household per sector with non-null sector sums 1, 2, 0
and 4. -/
theorem mortalityTable_fixed_shape_witness :
    mortalityTable "central"
        [mortUrbanHH, mortPeriHH, mortSettHH, mortRuralHH] =
      [ mortSectorRow (siteExact "central"
          [mortUrbanHH, mortPeriHH, mortSettHH, mortRuralHH]) (some 1),
        mortSectorRow (siteExact "central"
          [mortUrbanHH, mortPeriHH, mortSettHH, mortRuralHH]) (some 2),
        mortSectorRow (siteExact "central"
          [mortUrbanHH, mortPeriHH, mortSettHH, mortRuralHH]) (some 3),
        mortSectorRow (siteExact "central"
          [mortUrbanHH, mortPeriHH, mortSettHH, mortRuralHH]) (some 4),
        mortTotalRow (siteExact "central"
          [mortUrbanHH, mortPeriHH, mortSettHH, mortRuralHH]) ] ∧
    (mortTotalRow (siteExact "central"
        [mortUrbanHH, mortPeriHH, mortSettHH, mortRuralHH])).total_deaths =
      some (1 + 2 + 0 + 4) := by
  have hmain := mortalityTable_fixed_shape "central"
    [mortUrbanHH, mortPeriHH, mortSettHH, mortRuralHH]
    (by decide) (by decide) (by decide) (by decide) (by decide)
  exact ⟨hmain.1, hmain.2 1 2 0 4 (by decide) (by decide) (by decide)
    (by decide)⟩

/-- C10: the average-household-size metric uses a guarded division — a site
with zero households yields exactly 0 and the quotient branch is not taken;
a site with households yields the individual count divided by the household
count, rounded to two decimals. -/
theorem avgHouseholdSize_guarded (site : String) (hhs : List Household)
    (inds : List Individual) :
    ((siteHouseholds site hhs).length = 0 → avgHouseholdSize site hhs inds = 0) ∧
    (0 < (siteHouseholds site hhs).length →
      avgHouseholdSize site hhs inds =
        round2 (((siteIndividuals site hhs inds).length : ℚ) /
          ((siteHouseholds site hhs).length : ℚ))) := by
  constructor
  · intro h0
    simp [avgHouseholdSize, h0]
  · intro hpos
    simp [avgHouseholdSize, hpos]

/-- C10 witness: on an empty snapshot the metric is exactly 0. -/
theorem avgHouseholdSize_guarded_witness :
    avgHouseholdSize "central" [] [] = 0 :=
  (avgHouseholdSize_guarded "central" [] []).1 rfl

end Dashboard
